import Mathlib

/-!
# Verification of the snap-store vault's data model and policies

A shallow embedding of the snap-store repository: the SQL schema, row-level
security policies, the role-assignment and timestamp triggers
(`src/unnamed/part_000` and
`src/supabase/migrations/20260111072357_….sql`), and the client mutations
(`NotesList.tsx`, `ChatMessages.tsx`, `DocumentsList.tsx`, `ImagesGrid`).

Client-side text is modelled as a list of characters (`JSString`); database
state is a record of row lists; each mutation is a function from state to
state paired with an optional error message.  Fallible remote calls
(object-storage upload, row insert/delete) are abstracted by boolean
parameters saying whether the call succeeds.
-/

/-- JavaScript / SQL text values, modelled as their character sequences. -/
abbrev JSString := List Char

/-- Shorthand turning a Lean string literal into a `JSString`. -/
def str (s : String) : JSString := s.toList

/-- Whitespace as stripped by `String.prototype.trim` (ASCII part plus NBSP). -/
def isJsSpace (c : Char) : Bool :=
  c == ' ' || c == '\t' || c == '\n' || c == '\r' ||
  c == '\x0b' || c == '\x0c' || c == ' '

/-- `String.prototype.trim`: strip leading and trailing whitespace. -/
def jsTrim (s : JSString) : JSString :=
  ((s.dropWhile isJsSpace).reverse.dropWhile isJsSpace).reverse

/-- `String.prototype.split(sep)` for a one-character separator. -/
def jsSplitOn (sep : Char) : JSString → List JSString
  | [] => [[]]
  | c :: rest =>
    if c == sep then [] :: jsSplitOn sep rest
    else
      match jsSplitOn sep rest with
      | [] => [[c]]
      | s :: ss => (c :: s) :: ss

/-- `Array.prototype.pop()` on a split result (the last chunk). -/
def jsPop (l : List JSString) : JSString := l.getLastD []

/-- The `app_role` enum from the roles migration. -/
inductive AppRole where
  | admin
  | user
deriving DecidableEq, Repr

/-- A row of `public.user_roles` (key columns only). -/
structure UserRole where
  user_id : JSString
  role : AppRole
deriving DecidableEq, Repr

/-- A row of `public.notes`. -/
structure Note where
  id : JSString
  user_id : JSString
  title : JSString
  content : Option JSString
  created_at : Nat
  updated_at : Nat
deriving DecidableEq, Repr

/-- A row of `public.file_uploads`. -/
structure FileUploadRow where
  id : JSString
  user_id : JSString
  file_name : JSString
  file_type : JSString
  file_size : Nat
  storage_path : JSString
  category : JSString
  created_at : Nat
deriving DecidableEq, Repr

/-- The persistent state: application tables plus the object store
(`storage.objects` as pairs of bucket id and object key). -/
structure DB where
  notes : List Note
  file_uploads : List FileUploadRow
  user_roles : List UserRole
  objects : List (JSString × JSString)
deriving DecidableEq, Repr

/-- `public.has_role(_user_id, _role)`: `EXISTS (SELECT 1 FROM user_roles
WHERE user_id = _user_id AND role = _role)`. -/
def has_role (db : DB) (uid : JSString) (r : AppRole) : Bool :=
  db.user_roles.any (fun row => row.user_id == uid && row.role == r)

/-- Policy `"Users can view their own notes"`: `auth.uid() = user_id`. -/
def notesSelectOwn (uid : JSString) (n : Note) : Bool :=
  uid == n.user_id

/-- Policy `"Admins can view all notes"`: `has_role(auth.uid(), 'admin')`. -/
def notesSelectAdmin (db : DB) (uid : JSString) : Bool :=
  has_role db uid AppRole.admin

/-- Effective select predicate on `notes`: the disjunction of the two
permissive select policies. -/
def notesSelectPolicy (db : DB) (uid : JSString) (n : Note) : Bool :=
  notesSelectOwn uid n || notesSelectAdmin db uid

/-- A `SELECT * FROM notes` performed as identity `uid`: row-level security
returns exactly the rows whose select predicate holds. -/
def selectNotes (db : DB) (uid : JSString) : List Note :=
  db.notes.filter (notesSelectPolicy db uid)

/-- Policy `"Users can delete their own uploads"`: `auth.uid() = user_id`. -/
def fileUploadsDeleteOwn (uid : JSString) (f : FileUploadRow) : Bool :=
  uid == f.user_id

/-- Policy `"Admins can delete any upload"`: `has_role(auth.uid(), 'admin')`. -/
def fileUploadsDeleteAdmin (db : DB) (uid : JSString) : Bool :=
  has_role db uid AppRole.admin

/-- Effective delete predicate on `file_uploads` (disjunction of the two
permissive delete policies). -/
def fileUploadsDeletePolicy (db : DB) (uid : JSString) (f : FileUploadRow) : Bool :=
  fileUploadsDeleteOwn uid f || fileUploadsDeleteAdmin db uid

/-- `storage.foldername(name)`: the object key split on `/`, with the final
(file-name) component dropped. -/
def foldername (name : JSString) : List JSString :=
  (jsSplitOn '/' name).dropLast

/-- `auth.uid()::text = (storage.foldername(name))[1]`: the caller owns the
first path segment of the key (false when there is no folder component,
matching SQL `NULL` comparison). -/
def ownsFirstFolder (uid : JSString) (name : JSString) : Bool :=
  match foldername name with
  | [] => false
  | s :: _ => uid == s

/-- The select policies on `storage.objects` (`"Users can view their own
images"` OR `"Users can view their own documents"`). -/
def storageSelectPolicy (uid : JSString) (bucket : JSString) (name : JSString) : Bool :=
  (bucket == str "images" && ownsFirstFolder uid name) ||
  (bucket == str "documents" && ownsFirstFolder uid name)

/-- The insert policies on `storage.objects` (`"Users can upload their own
images"` OR `"Users can upload their own documents"`). -/
def storageInsertPolicy (uid : JSString) (bucket : JSString) (name : JSString) : Bool :=
  (bucket == str "images" && ownsFirstFolder uid name) ||
  (bucket == str "documents" && ownsFirstFolder uid name)

/-- The delete policies on `storage.objects` (`"Users can delete their own
images"` OR `"Users can delete their own documents"`). -/
def storageDeletePolicy (uid : JSString) (bucket : JSString) (name : JSString) : Bool :=
  (bucket == str "images" && ownsFirstFolder uid name) ||
  (bucket == str "documents" && ownsFirstFolder uid name)

/-- `INSERT INTO public.user_roles (user_id, role) VALUES …` (by an admin,
or by the trigger's elevated context). -/
def insertRole (db : DB) (uid : JSString) (r : AppRole) : DB :=
  { db with user_roles := db.user_roles ++ [⟨uid, r⟩] }

/-- `DELETE FROM public.user_roles WHERE user_id = … AND role = …`. -/
def deleteRole (db : DB) (uid : JSString) (r : AppRole) : DB :=
  { db with user_roles :=
      db.user_roles.filter (fun row => !(row.user_id == uid && row.role == r)) }

/-- The identity store together with the role table the trigger populates. -/
structure AuthState where
  users : List JSString
  roles : List UserRole
deriving DecidableEq, Repr

/-- `public.handle_new_user_role()`: count the rows of `auth.users` whose id
differs from `NEW.id`; if the count is zero insert an `admin` role row for
the new identity, otherwise a `user` role row.  `users` is the contents of
`auth.users` at trigger time (the trigger is `AFTER INSERT`, so it already
contains the new row). -/
def handle_new_user_role (users : List JSString) (newId : JSString)
    (roles : List UserRole) : List UserRole :=
  let user_count := (users.filter (fun u => !(u == newId))).length
  if user_count = 0 then
    roles ++ [⟨newId, AppRole.admin⟩]
  else
    roles ++ [⟨newId, AppRole.user⟩]

/-- Creating an identity: insert into `auth.users`, then fire the
`on_auth_user_created_role` trigger. -/
def createUser (st : AuthState) (newId : JSString) : AuthState :=
  let users := st.users ++ [newId]
  ⟨users, handle_new_user_role users newId st.roles⟩

/-- A whole sequence of sign-ups starting from an empty identity store. -/
def createUsers (ids : List JSString) : AuthState :=
  ids.foldl createUser ⟨[], []⟩

/-- The multiset of roles the role table currently assigns to `uid`. -/
def rolesOf (st : AuthState) (uid : JSString) : List AppRole :=
  (st.roles.filter (fun r => r.user_id == uid)).map (fun r => r.role)

/-- `public.update_updated_at_column()`: `NEW.updated_at = now(); RETURN
NEW;` applied to the proposed new row. -/
def update_updated_at_column (now : Nat) (new : Note) : Note :=
  { new with updated_at := now }

/-- An `UPDATE public.notes SET … WHERE …` at time `now`: every matching row
is replaced by the caller's proposed row, after the `BEFORE UPDATE` trigger
`update_notes_updated_at` has run on it. -/
def updateNotes (db : DB) (now : Nat) (pred : Note → Bool)
    (set : Note → Note) : DB :=
  { db with notes :=
      db.notes.map (fun n =>
        if pred n then update_updated_at_column now (set n) else n) }

/-- The zod schema in `NotesList.tsx`: title trimmed, length in `[1, 200]`;
content trimmed, length at most `10000`.  Returns the first violated rule's
message (`validation.error.errors[0].message`), or the parsed data. -/
def noteSchemaSafeParse (title content : JSString) :
    Except JSString (JSString × JSString) :=
  let t := jsTrim title
  let c := jsTrim content
  if t.length < 1 then Except.error (str "Title is required")
  else if t.length > 200 then Except.error (str "Title too long")
  else if c.length > 10000 then Except.error (str "Content too long")
  else Except.ok (t, c)

/-- The zod schema in `ChatMessages.tsx`: title trimmed, length in
`[1, 100]`; content trimmed, length in `[1, 500]`. -/
def chatNoteSchemaSafeParse (title content : JSString) :
    Except JSString (JSString × JSString) :=
  let t := jsTrim title
  let c := jsTrim content
  if t.length < 1 then Except.error (str "Title is required")
  else if t.length > 100 then Except.error (str "Title too long")
  else if c.length < 1 then Except.error (str "Message is required")
  else if c.length > 500 then Except.error (str "Message too long")
  else Except.ok (t, c)

/-- `createMutation` of `NotesList.tsx`: validate with `noteSchema` (throw
the first error message), require an authenticated user, then insert the
original (untrimmed) `title`/`content` with `user_id: user.id`.  `noteId`
and `now` stand for the server-generated id and timestamps; `insertOk` says
whether the insert statement succeeds. -/
def notesCreateMutation (db : DB) (uid? : Option JSString)
    (title content : JSString) (noteId : JSString) (now : Nat)
    (insertOk : Bool) : DB × Option JSString :=
  match noteSchemaSafeParse title content with
  | Except.error msg => (db, some msg)
  | Except.ok _ =>
    match uid? with
    | none => (db, some (str "Not authenticated"))
    | some uid =>
      if insertOk then
        ({ db with notes :=
            db.notes ++ [⟨noteId, uid, title, some content, now, now⟩] }, none)
      else
        (db, some (str "insert error"))

/-- `createMutation` of `ChatMessages.tsx`: validate with the chat
`noteSchema`, require an authenticated user, then insert
`{ title, content, user_id }`. -/
def chatCreateMutation (db : DB) (uid? : Option JSString)
    (title content : JSString) (noteId : JSString) (now : Nat)
    (insertOk : Bool) : DB × Option JSString :=
  match chatNoteSchemaSafeParse title content with
  | Except.error msg => (db, some msg)
  | Except.ok _ =>
    match uid? with
    | none => (db, some (str "Not authenticated"))
    | some uid =>
      if insertOk then
        ({ db with notes :=
            db.notes ++ [⟨noteId, uid, title, some content, now, now⟩] }, none)
      else
        (db, some (str "insert error"))

/-- A `File` as handed to the upload mutations. -/
structure JSFile where
  name : JSString
  ftype : JSString
  size : Nat
deriving DecidableEq, Repr

/-- `file.name.split(".").pop()`. -/
def fileExtOf (name : JSString) : JSString :=
  jsPop (jsSplitOn '.' name)

/-- `uploadMutation` of `DocumentsList.tsx`: require an authenticated user,
build `filePath = user.id + "/" + crypto.randomUUID() + "." + fileExt`,
upload to the `documents` bucket (abort with the storage error if it
fails), then insert the metadata row with `category: "document"` (abort
with the db error if that fails).  `genId` stands for the random UUID,
`rowId`/`now` for the server-generated row id and timestamp. -/
def documentsUploadMutation (db : DB) (uid? : Option JSString)
    (genId rowId : JSString) (f : JSFile) (uploadOk insertOk : Bool)
    (now : Nat) : DB × Option JSString :=
  match uid? with
  | none => (db, some (str "Not authenticated"))
  | some uid =>
    let fileExt := fileExtOf f.name
    let filePath := uid ++ str "/" ++ genId ++ str "." ++ fileExt
    if uploadOk then
      let db1 := { db with objects := db.objects ++ [(str "documents", filePath)] }
      if insertOk then
        ({ db1 with file_uploads := db1.file_uploads ++
            [⟨rowId, uid, f.name, f.ftype, f.size, filePath, str "document", now⟩] },
         none)
      else
        (db1, some (str "db error"))
    else
      (db, some (str "storage upload error"))

/-- `uploadMutation` of the `ImagesGrid` component: identical to the
documents flow but targeting the `images` bucket with
`category: "image"`. -/
def imagesUploadMutation (db : DB) (uid? : Option JSString)
    (genId rowId : JSString) (f : JSFile) (uploadOk insertOk : Bool)
    (now : Nat) : DB × Option JSString :=
  match uid? with
  | none => (db, some (str "Not authenticated"))
  | some uid =>
    let fileExt := fileExtOf f.name
    let filePath := uid ++ str "/" ++ genId ++ str "." ++ fileExt
    if uploadOk then
      let db1 := { db with objects := db.objects ++ [(str "images", filePath)] }
      if insertOk then
        ({ db1 with file_uploads := db1.file_uploads ++
            [⟨rowId, uid, f.name, f.ftype, f.size, filePath, str "image", now⟩] },
         none)
      else
        (db1, some (str "db error"))
    else
      (db, some (str "storage upload error"))

/-- `handleDeleteFile(id, storagePath?)` of the AdminPanel in
`ChatMessages.tsx`: when `storagePath` is provided, first remove that key
from the `images` and `documents` buckets (results unchecked); then delete
the `file_uploads` row by id, reporting failure via a toast message. -/
def handleDeleteFile (db : DB) (id : JSString) (storagePath : Option JSString)
    (dbOk : Bool) : DB × Option JSString :=
  let db1 :=
    match storagePath with
    | some p =>
      { db with objects := db.objects.filter (fun o =>
          !((o.1 == str "images" || o.1 == str "documents") && o.2 == p)) }
    | none => db
  if dbOk then
    ({ db1 with file_uploads := db1.file_uploads.filter (fun r => !(r.id == id)) },
     none)
  else
    (db1, some (str "Failed to delete file"))

/-- The AdminPanel file-table delete action: `onClick={() =>
handleDeleteFile(file.id)}` — the `storagePath` argument is omitted. -/
def adminPanelDeleteFile (db : DB) (fileId : JSString) (dbOk : Bool) :
    DB × Option JSString :=
  handleDeleteFile db fileId none dbOk

/-! Concrete fixtures used to instantiate the theorems below on executable
inputs. -/

/-- An empty database. -/
def dbEmpty : DB := ⟨[], [], [], []⟩

/-- A database whose role table grants `admin` to identity `a1`. -/
def dbRolesW : DB := ⟨[], [], [⟨str "a1", AppRole.admin⟩], []⟩

/-- A sample `file_uploads` row owned by identity `b1`. -/
def fileRowW : FileUploadRow :=
  ⟨str "f1", str "b1", str "cat.png", str "image/png", 3, str "b1/g.png",
   str "image", 0⟩

/-- A sample note owned by `u1`, last updated at time 3. -/
def noteW : Note := ⟨str "n1", str "u1", str "t", none, 0, 3⟩

/-- A database holding just `noteW`. -/
def dbNotesW : DB := ⟨[noteW], [], [], []⟩

/-- A sample update filter: rows whose id is `n1`. -/
def predW : Note → Bool := fun m => m.id == str "n1"

/-- A sample `SET` clause: change the title. -/
def setW : Note → Note := fun m => { m with title := str "t2" }

/-- The same `SET` clause with a forged client-supplied `updated_at`. -/
def setWcu : Note → Note := fun m => { setW m with updated_at := 7 }

/-- A sample file handed to the upload mutations. -/
def fileW : JSFile := ⟨str "a.pdf", str "application/pdf", 10⟩

/-- A 10001-character content string whose first character is a space. -/
def cexContent : JSString := ' ' :: List.replicate 10000 'a'

/-- A 10001-character content string with no surrounding whitespace. -/
def longContent : JSString := List.replicate 10001 'a'

theorem str_images_ne_documents : (str "images" == str "documents") = false := by
  decide

theorem str_documents_ne_images : (str "documents" == str "images") = false := by
  decide

/-- C1: a select on `notes` performed as identity `uid` returns a row exactly
when the row is in the table and `uid` is the row's owner or holds the admin
role; in particular a note owned by someone else is never visible to a
non-admin caller. -/
theorem notesSelectOwnerOrAdmin (db : DB) (uid : JSString) (n : Note) :
    n ∈ selectNotes db uid ↔
      n ∈ db.notes ∧ (uid = n.user_id ∨ has_role db uid AppRole.admin = true) := by
  simp [selectNotes, notesSelectPolicy, notesSelectOwn, notesSelectAdmin,
    List.mem_filter]

/-- C4: `has_role(I, r)` is true exactly when the role table currently
contains a row `(I, r)`, and its value after an insert or delete on the role
table reflects the updated table contents (no caching or staleness). -/
theorem hasRoleReflectsTable (db : DB) (u u2 : JSString) (r r2 : AppRole) :
    (has_role db u r = true ↔ ∃ row ∈ db.user_roles, row.user_id = u ∧ row.role = r)
    ∧ (has_role (insertRole db u2 r2) u r = true ↔
        (has_role db u r = true ∨ (u2 = u ∧ r2 = r)))
    ∧ (has_role (deleteRole db u2 r2) u r = true ↔
        (has_role db u r = true ∧ ¬(u2 = u ∧ r2 = r))) := by
  refine ⟨by simp [has_role, List.any_eq_true],
    by simp [has_role, insertRole, List.any_eq_true], ?_⟩
  simp [has_role, deleteRole, List.any_eq_true, List.mem_filter]
  constructor
  · rintro ⟨row, hmem, hq, hu, hr⟩
    subst hu; subst hr
    refine ⟨⟨row, hmem, rfl, rfl⟩, ?_⟩
    intro h2 h3
    rcases hq with h | h
    · exact h h2.symm
    · exact h h3.symm
  · rintro ⟨⟨row, hmem, hu, hr⟩, hne⟩
    subst hu; subst hr
    refine ⟨row, hmem, ?_, rfl, rfl⟩
    by_cases hc : row.user_id = u2
    · exact Or.inr (fun h => hne hc.symm h.symm)
    · exact Or.inl hc

/-- C3: on the `images` and `documents` buckets, select, insert and delete on
a stored object are each permitted exactly when the first path segment of the
key equals the caller's identity; an admin who does not own the path cannot
delete the object, although the admin can delete the metadata row. -/
theorem storagePolicyPathOwnershipOnly (uid auid name bucket : JSString)
    (db : DB) (f : FileUploadRow)
    (hb : bucket = str "images" ∨ bucket = str "documents")
    (hadm : has_role db auid AppRole.admin = true)
    (hnot : ownsFirstFolder auid name = false) :
    storageSelectPolicy uid bucket name = ownsFirstFolder uid name
    ∧ storageInsertPolicy uid bucket name = ownsFirstFolder uid name
    ∧ storageDeletePolicy uid bucket name = ownsFirstFolder uid name
    ∧ storageDeletePolicy auid bucket name = false
    ∧ fileUploadsDeletePolicy db auid f = true := by
  rcases hb with h | h <;> subst h <;>
    simp [storageSelectPolicy, storageInsertPolicy, storageDeletePolicy,
      fileUploadsDeletePolicy, fileUploadsDeleteAdmin, hadm, hnot,
      str_images_ne_documents, str_documents_ne_images]

/-- C9: the AdminPanel delete action passes no storage path, so the object
store is untouched (as are the other tables); on success only the
`file_uploads` row with the given id is removed. -/
theorem adminPanelDeleteFrame (db : DB) (fileId : JSString) (dbOk : Bool) :
    (adminPanelDeleteFile db fileId dbOk).1.objects = db.objects
    ∧ (adminPanelDeleteFile db fileId true).1.file_uploads =
        db.file_uploads.filter (fun r => !(r.id == fileId))
    ∧ (adminPanelDeleteFile db fileId dbOk).1.notes = db.notes
    ∧ (adminPanelDeleteFile db fileId dbOk).1.user_roles = db.user_roles := by
  cases dbOk <;> simp [adminPanelDeleteFile, handleDeleteFile]

/-- C6: when the object-storage upload call fails, both upload mutations
abort with the storage error and leave the whole state — in particular the
`file_uploads` table — unchanged. -/
theorem uploadFailureNoMetadataRow (db : DB) (uid genId rowId : JSString)
    (f : JSFile) (insertOk : Bool) (now : Nat) (uploadOk : Bool)
    (hu : uploadOk = false) :
    documentsUploadMutation db (some uid) genId rowId f uploadOk insertOk now
      = (db, some (str "storage upload error"))
    ∧ imagesUploadMutation db (some uid) genId rowId f uploadOk insertOk now
      = (db, some (str "storage upload error")) := by
  subst hu
  simp [documentsUploadMutation, imagesUploadMutation]

/-- C10: the chat-style note variant rejects any send whose trimmed person
name is empty or longer than 100 characters, or whose trimmed message is
empty or longer than 500 characters: the mutation raises a validation error
before the insert call and the state is unchanged. -/
theorem chatValidationRejects (db : DB) (uid? : Option JSString)
    (title content noteId : JSString) (now : Nat) (insertOk : Bool)
    (hviol : ¬(1 ≤ (jsTrim title).length ∧ (jsTrim title).length ≤ 100 ∧
               1 ≤ (jsTrim content).length ∧ (jsTrim content).length ≤ 500)) :
    (chatCreateMutation db uid? title content noteId now insertOk).1 = db
    ∧ (chatCreateMutation db uid? title content noteId now insertOk).2.isSome
      = true := by
  by_cases h1 : (jsTrim title).length < 1
  · simp [chatCreateMutation, chatNoteSchemaSafeParse, h1]
  · by_cases h2 : (jsTrim title).length > 100
    · simp [chatCreateMutation, chatNoteSchemaSafeParse, h1, h2]
    · by_cases h3 : (jsTrim content).length < 1
      · simp [chatCreateMutation, chatNoteSchemaSafeParse, h1, h2, h3]
      · have h4 : (jsTrim content).length > 500 := by omega
        simp [chatCreateMutation, chatNoteSchemaSafeParse, h1, h2, h3, h4]

/-- C5: the `BEFORE UPDATE` trigger overwrites `updated_at` with the write
time: whatever `updated_at` the caller supplies has no effect on the result,
the committed row carries the write time, and over successive updates under
a non-decreasing clock the column never decreases. -/
theorem notesUpdatedAtTrigger (db : DB) (now cu : Nat) (pred : Note → Bool)
    (set : Note → Note) (n : Note) (hmem : n ∈ db.notes) (hp : pred n = true)
    (hpast : n.updated_at ≤ now) :
    updateNotes db now pred (fun m => { set m with updated_at := cu })
      = updateNotes db now pred set
    ∧ (update_updated_at_column now (set n)).updated_at = now
    ∧ update_updated_at_column now (set n) ∈ (updateNotes db now pred set).notes
    ∧ n.updated_at ≤ (update_updated_at_column now (set n)).updated_at := by
  refine ⟨rfl, rfl, ?_, ?_⟩
  · have himg : update_updated_at_column now (set n) =
        (fun m => if pred m then update_updated_at_column now (set m) else m) n := by
      simp [hp]
    rw [himg]
    exact List.mem_map_of_mem _ hmem
  · simpa [update_updated_at_column] using hpast

theorem jsSplitOn_cons (sep c : Char) (rest : JSString) :
    jsSplitOn sep (c :: rest) =
      if c == sep then [] :: jsSplitOn sep rest
      else
        match jsSplitOn sep rest with
        | [] => [[c]]
        | s :: ss => (c :: s) :: ss := rfl

theorem jsSplitOn_ne_nil (sep : Char) (s : JSString) : jsSplitOn sep s ≠ [] := by
  induction s with
  | nil => simp [jsSplitOn]
  | cons c rest ih =>
    rw [jsSplitOn_cons]
    by_cases h : (c == sep) = true
    · simp [h]
    · simp only [Bool.not_eq_true] at h
      simp only [h]
      cases hr : jsSplitOn sep rest with
      | nil => simp
      | cons s ss => simp

theorem jsSplitOn_append_of_not_mem (sep : Char) (l1 l2 : JSString)
    (h : sep ∉ l1) :
    jsSplitOn sep (l1 ++ sep :: l2) = l1 :: jsSplitOn sep l2 := by
  induction l1 with
  | nil => simp [jsSplitOn_cons]
  | cons c rest ih =>
    have hne : ¬c = sep := by
      simp only [List.mem_cons, not_or] at h
      exact fun hh => h.1 hh.symm
    have hc : (c == sep) = false := by simp [hne]
    have hrest : sep ∉ rest := by
      simp only [List.mem_cons, not_or] at h
      exact h.2
    rw [List.cons_append, jsSplitOn_cons, hc, ih hrest]
    simp

theorem ownsFirstFolder_self_append (uid rest : JSString) (h : '/' ∉ uid) :
    ownsFirstFolder uid (uid ++ '/' :: rest) = true := by
  unfold ownsFirstFolder foldername
  rw [jsSplitOn_append_of_not_mem _ _ _ h]
  cases hr : jsSplitOn '/' rest with
  | nil => exact absurd hr (jsSplitOn_ne_nil '/' rest)
  | cons s ss => simp

theorem str_slash : str "/" = ['/'] := by decide

theorem str_dot : str "." = ['.'] := by decide

/-- C8: a successful upload by `uid` (documents or images alike) appends an
object and a metadata row both keyed `{user_id}/{generated_id}.{ext}`, and
the first path segment of that key is `uid` itself (a user id contains no
slash). -/
theorem uploadPathEncodesOwner (db : DB) (uid genId rowId : JSString)
    (f : JSFile) (now : Nat) (h : '/' ∉ uid) :
    (documentsUploadMutation db (some uid) genId rowId f true true now).1.file_uploads
      = db.file_uploads ++ [⟨rowId, uid, f.name, f.ftype, f.size,
          uid ++ str "/" ++ genId ++ str "." ++ fileExtOf f.name, str "document", now⟩]
    ∧ (documentsUploadMutation db (some uid) genId rowId f true true now).1.objects
      = db.objects ++ [(str "documents",
          uid ++ str "/" ++ genId ++ str "." ++ fileExtOf f.name)]
    ∧ (imagesUploadMutation db (some uid) genId rowId f true true now).1.file_uploads
      = db.file_uploads ++ [⟨rowId, uid, f.name, f.ftype, f.size,
          uid ++ str "/" ++ genId ++ str "." ++ fileExtOf f.name, str "image", now⟩]
    ∧ (imagesUploadMutation db (some uid) genId rowId f true true now).1.objects
      = db.objects ++ [(str "images",
          uid ++ str "/" ++ genId ++ str "." ++ fileExtOf f.name)]
    ∧ ownsFirstFolder uid (uid ++ str "/" ++ genId ++ str "." ++ fileExtOf f.name)
      = true := by
  refine ⟨by simp [documentsUploadMutation], by simp [documentsUploadMutation],
    by simp [imagesUploadMutation], by simp [imagesUploadMutation], ?_⟩
  have hpath : uid ++ str "/" ++ genId ++ str "." ++ fileExtOf f.name
      = uid ++ '/' :: (genId ++ '.' :: fileExtOf f.name) := by
    simp [str_slash, str_dot]
  rw [hpath]
  exact ownsFirstFolder_self_append _ _ h

theorem createUser_of_not_first (st : AuthState) (a : JSString)
    (hne : st.users ≠ []) (ha : a ∉ st.users) :
    createUser st a = ⟨st.users ++ [a], st.roles ++ [⟨a, AppRole.user⟩]⟩ := by
  unfold createUser handle_new_user_role
  have hfilter : (st.users ++ [a]).filter (fun u => !(u == a)) = st.users := by
    rw [List.filter_append]
    have h1 : st.users.filter (fun u => !(u == a)) = st.users := by
      rw [List.filter_eq_self]
      intro u hu
      simp only [Bool.not_eq_eq_eq_not, Bool.not_true, beq_eq_false_iff_ne]
      exact fun hh => ha (hh ▸ hu)
    have h2 : ([a] : List JSString).filter (fun u => !(u == a)) = [] := by simp
    rw [h1, h2, List.append_nil]
  simp only [hfilter]
  rw [if_neg]
  simpa using hne

theorem createUser_first (a : JSString) :
    createUser ⟨[], []⟩ a = ⟨[a], [⟨a, AppRole.admin⟩]⟩ := by
  unfold createUser handle_new_user_role
  simp

theorem foldl_createUser_all_user (ids : List JSString) :
    ∀ st : AuthState, st.users ≠ [] → (∀ i ∈ ids, i ∉ st.users) → ids.Nodup →
    ids.foldl createUser st
      = ⟨st.users ++ ids, st.roles ++ ids.map (fun i => ⟨i, AppRole.user⟩)⟩ := by
  induction ids with
  | nil => intro st _ _ _; simp
  | cons a t ih =>
    intro st hne hnotin hnd
    have ha : a ∉ st.users := hnotin a (List.mem_cons_self a t)
    rw [List.foldl_cons, createUser_of_not_first st a hne ha]
    have hne2 : (st.users ++ [a]) ≠ ([] : List JSString) := by simp
    have hnotin2 : ∀ i ∈ t, i ∉ st.users ++ [a] := by
      intro i hi
      simp only [List.mem_append, List.mem_singleton, not_or]
      refine ⟨hnotin i (List.mem_cons_of_mem a hi), ?_⟩
      intro hia
      exact (List.nodup_cons.mp hnd).1 (hia ▸ hi)
    have hnd2 : t.Nodup := (List.nodup_cons.mp hnd).2
    have hstep := ih ⟨st.users ++ [a], st.roles ++ [⟨a, AppRole.user⟩]⟩ hne2 hnotin2 hnd2
    rw [hstep]
    simp

theorem createUsers_spec (a : JSString) (t : List JSString)
    (hnd : (a :: t).Nodup) :
    createUsers (a :: t)
      = ⟨a :: t, ⟨a, AppRole.admin⟩ :: t.map (fun i => ⟨i, AppRole.user⟩)⟩ := by
  unfold createUsers
  rw [List.foldl_cons, createUser_first]
  have hnotin : ∀ i ∈ t, i ∉ ([a] : List JSString) := by
    intro i hi
    simp only [List.mem_singleton]
    intro hia
    exact (List.nodup_cons.mp hnd).1 (hia ▸ hi)
  rw [foldl_createUser_all_user t ⟨[a], [⟨a, AppRole.admin⟩]⟩ (by simp) hnotin
    (List.nodup_cons.mp hnd).2]
  simp

theorem filter_userRole_map (t : List JSString) (u : JSString) :
    (t.map (fun i => (⟨i, AppRole.user⟩ : UserRole))).filter
        (fun r => r.user_id == u)
      = (t.filter (fun i => i == u)).map (fun i => ⟨i, AppRole.user⟩) := by
  induction t with
  | nil => simp
  | cons b s ih =>
    by_cases h : (b == u) = true
    · simp [List.filter_cons, h, ih]
    · simp only [Bool.not_eq_true] at h
      simp [List.filter_cons, h, ih]

theorem filter_beq_self_of_nodup (t : List JSString) (hnd : t.Nodup)
    (u : JSString) (hu : u ∈ t) :
    t.filter (fun i => i == u) = [u] := by
  induction t with
  | nil => cases hu
  | cons b s ih =>
    rcases List.mem_cons.mp hu with hb | hs
    · subst hb
      have hnotin : u ∉ s := (List.nodup_cons.mp hnd).1
      have hnil : s.filter (fun i => i == u) = [] := by
        rw [List.filter_eq_nil_iff]
        intro i hi
        simp only [beq_iff_eq]
        exact fun he => hnotin (he ▸ hi)
      simp [List.filter_cons, hnil]
    · have hb : ¬b = u := by
        intro he
        exact (List.nodup_cons.mp hnd).1 (he ▸ hs)
      have ih2 := ih (List.nodup_cons.mp hnd).2 hs
      simp [List.filter_cons, hb, ih2]

/-- C2: starting from an empty identity store, any duplicate-free sequence of
sign-ups yields exactly one role row per identity, the first identity holding
exactly `{admin}` and every later one exactly `{user}`, regardless of
creation order. -/
theorem firstIdentityAdminRestUser (ids : List JSString) (hnd : ids.Nodup)
    (k : Nat) (hk : k < ids.length) :
    (createUsers ids).users = ids
    ∧ (createUsers ids).roles.map (fun r => r.user_id) = ids
    ∧ rolesOf (createUsers ids) (ids.get ⟨k, hk⟩)
      = (if k = 0 then [AppRole.admin] else [AppRole.user]) := by
  cases ids with
  | nil => exact absurd hk (Nat.not_lt_zero k)
  | cons a t =>
    have hna : a ∉ t := (List.nodup_cons.mp hnd).1
    have hnt : t.Nodup := (List.nodup_cons.mp hnd).2
    rw [createUsers_spec a t hnd]
    refine ⟨rfl, by simp [Function.comp_def], ?_⟩
    unfold rolesOf
    cases k with
    | zero =>
      have hnil : t.filter (fun i => i == a) = [] := by
        rw [List.filter_eq_nil_iff]
        intro i hi
        simp only [beq_iff_eq]
        exact fun he => hna (he ▸ hi)
      simp [List.filter_cons, filter_userRole_map, hnil]
    | succ j =>
      have hj : j < t.length := by simpa using hk
      have hu : t[j] ∈ t := List.getElem_mem hj
      have hne : ¬a = t[j] := fun he => hna (he ▸ hu)
      have hone := filter_beq_self_of_nodup t hnt _ hu
      simp [List.filter_cons, filter_userRole_map, hne, hone]

theorem dropWhile_replicate_of_false (p : Char → Bool) (c : Char)
    (h : p c = false) (n : Nat) :
    (List.replicate n c).dropWhile p = List.replicate n c := by
  cases n with
  | zero => rfl
  | succ m =>
    rw [List.replicate_succ, List.dropWhile_cons, h]
    simp [List.replicate_succ]

theorem jsTrim_cexContent : jsTrim cexContent = List.replicate 10000 'a' := by
  have hsp : isJsSpace ' ' = true := by decide
  have ha : isJsSpace 'a' = false := by decide
  unfold cexContent jsTrim
  rw [List.dropWhile_cons, hsp, if_pos rfl,
    dropWhile_replicate_of_false isJsSpace 'a' ha, List.reverse_replicate,
    dropWhile_replicate_of_false isJsSpace 'a' ha, List.reverse_replicate]

theorem jsTrim_longContent : jsTrim longContent = longContent := by
  have ha : isJsSpace 'a' = false := by decide
  unfold longContent jsTrim
  rw [dropWhile_replicate_of_false isJsSpace 'a' ha, List.reverse_replicate,
    dropWhile_replicate_of_false isJsSpace 'a' ha, List.reverse_replicate]

/-- C7 counterexample: the 10001-character content string starting with a
space passes the trimming validator of `NotesList.tsx`, so the creation is
not rejected: the insert is issued and the notes store changes. -/
theorem noteContentTrimCounterexample :
    cexContent.length = 10001
    ∧ (notesCreateMutation dbEmpty (some (str "u1")) (str "x") cexContent
        (str "n1") 0 true).1 ≠ dbEmpty
    ∧ (notesCreateMutation dbEmpty (some (str "u1")) (str "x") cexContent
        (str "n1") 0 true).2 = none := by
  have hx : jsTrim (str "x") = str "x" := by decide
  have hxlen : (str "x").length = 1 := by decide
  have hparse : noteSchemaSafeParse (str "x") cexContent
      = Except.ok (str "x", List.replicate 10000 'a') := by
    simp only [noteSchemaSafeParse, hx, jsTrim_cexContent,
      List.length_replicate, hxlen]
    norm_num
  have hres : notesCreateMutation dbEmpty (some (str "u1")) (str "x")
      cexContent (str "n1") 0 true
      = (⟨[⟨str "n1", str "u1", str "x", some cexContent, 0, 0⟩], [], [], []⟩,
         none) := by
    unfold notesCreateMutation
    rw [hparse]
    rfl
  refine ⟨?_, ?_, ?_⟩
  · unfold cexContent
    rw [List.length_cons, List.length_replicate]
  · rw [hres]
    simp [dbEmpty]
  · rw [hres]

/-- C7 (amended): a note creation whose content still exceeds 10000
characters after trimming is rejected by client-side validation before any
network call, and the notes store is left unchanged. -/
theorem noteContentOverLimitRejected (db : DB) (uid? : Option JSString)
    (title content noteId : JSString) (now : Nat) (insertOk : Bool)
    (hlen : (jsTrim content).length > 10000) :
    (notesCreateMutation db uid? title content noteId now insertOk).1 = db
    ∧ (notesCreateMutation db uid? title content noteId now insertOk).2.isSome
      = true := by
  by_cases h1 : (jsTrim title).length < 1
  · simp [notesCreateMutation, noteSchemaSafeParse, h1]
  · by_cases h2 : (jsTrim title).length > 200
    · simp [notesCreateMutation, noteSchemaSafeParse, h1, h2]
    · simp [notesCreateMutation, noteSchemaSafeParse, h1, h2, hlen]

theorem noteContentOverLimitRejected_witness :
    (jsTrim longContent).length > 10000
    ∧ ((notesCreateMutation dbEmpty (some (str "u1")) (str "x") longContent
        (str "n1") 0 true).1 = dbEmpty
      ∧ (notesCreateMutation dbEmpty (some (str "u1")) (str "x") longContent
          (str "n1") 0 true).2.isSome = true) :=
  ⟨by rw [jsTrim_longContent]; unfold longContent; rw [List.length_replicate]; norm_num,
   noteContentOverLimitRejected dbEmpty (some (str "u1")) (str "x") longContent
     (str "n1") 0 true
     (by rw [jsTrim_longContent]; unfold longContent; rw [List.length_replicate]; norm_num)⟩

theorem firstIdentityAdminRestUser_witness :
    ([str "a", str "b"] : List JSString).Nodup
    ∧ 1 < ([str "a", str "b"] : List JSString).length
    ∧ ((createUsers [str "a", str "b"]).users = [str "a", str "b"]
      ∧ (createUsers [str "a", str "b"]).roles.map (fun r => r.user_id)
        = [str "a", str "b"]
      ∧ rolesOf (createUsers [str "a", str "b"])
          (([str "a", str "b"] : List JSString).get ⟨1, by decide⟩)
        = (if 1 = 0 then [AppRole.admin] else [AppRole.user])) :=
  ⟨by decide, by decide,
   firstIdentityAdminRestUser [str "a", str "b"] (by decide) 1 (by decide)⟩

theorem storagePolicyPathOwnershipOnly_witness :
    ((str "images" : JSString) = str "images" ∨ (str "images" : JSString) = str "documents")
    ∧ has_role dbRolesW (str "a1") AppRole.admin = true
    ∧ ownsFirstFolder (str "a1") (str "u1/x.png") = false
    ∧ (storageSelectPolicy (str "u1") (str "images") (str "u1/x.png")
        = ownsFirstFolder (str "u1") (str "u1/x.png")
      ∧ storageInsertPolicy (str "u1") (str "images") (str "u1/x.png")
        = ownsFirstFolder (str "u1") (str "u1/x.png")
      ∧ storageDeletePolicy (str "u1") (str "images") (str "u1/x.png")
        = ownsFirstFolder (str "u1") (str "u1/x.png")
      ∧ storageDeletePolicy (str "a1") (str "images") (str "u1/x.png") = false
      ∧ fileUploadsDeletePolicy dbRolesW (str "a1") fileRowW = true) :=
  ⟨Or.inl rfl, by decide, by decide,
   storagePolicyPathOwnershipOnly (str "u1") (str "a1") (str "u1/x.png")
     (str "images") dbRolesW fileRowW (Or.inl rfl) (by decide) (by decide)⟩

theorem notesUpdatedAtTrigger_witness :
    noteW ∈ dbNotesW.notes ∧ predW noteW = true ∧ noteW.updated_at ≤ 5
    ∧ (updateNotes dbNotesW 5 predW setWcu = updateNotes dbNotesW 5 predW setW
      ∧ (update_updated_at_column 5 (setW noteW)).updated_at = 5
      ∧ update_updated_at_column 5 (setW noteW)
          ∈ (updateNotes dbNotesW 5 predW setW).notes
      ∧ noteW.updated_at ≤ (update_updated_at_column 5 (setW noteW)).updated_at) :=
  ⟨by decide, by decide, by decide,
   notesUpdatedAtTrigger dbNotesW 5 7 predW setW noteW (by decide) (by decide)
     (by decide)⟩

theorem uploadFailureNoMetadataRow_witness :
    (false = false)
    ∧ (documentsUploadMutation dbEmpty (some (str "u1")) (str "g") (str "r")
        fileW false true 0 = (dbEmpty, some (str "storage upload error"))
      ∧ imagesUploadMutation dbEmpty (some (str "u1")) (str "g") (str "r")
        fileW false true 0 = (dbEmpty, some (str "storage upload error"))) :=
  ⟨rfl, uploadFailureNoMetadataRow dbEmpty (str "u1") (str "g") (str "r") fileW
    true 0 false rfl⟩

theorem uploadPathEncodesOwner_witness :
    '/' ∉ (str "u1" : JSString)
    ∧ ((documentsUploadMutation dbEmpty (some (str "u1")) (str "g") (str "r")
          fileW true true 0).1.file_uploads
        = dbEmpty.file_uploads ++ [⟨str "r", str "u1", fileW.name, fileW.ftype,
            fileW.size, str "u1" ++ str "/" ++ str "g" ++ str "." ++
              fileExtOf fileW.name, str "document", 0⟩]
      ∧ (documentsUploadMutation dbEmpty (some (str "u1")) (str "g") (str "r")
          fileW true true 0).1.objects
        = dbEmpty.objects ++ [(str "documents",
            str "u1" ++ str "/" ++ str "g" ++ str "." ++ fileExtOf fileW.name)]
      ∧ (imagesUploadMutation dbEmpty (some (str "u1")) (str "g") (str "r")
          fileW true true 0).1.file_uploads
        = dbEmpty.file_uploads ++ [⟨str "r", str "u1", fileW.name, fileW.ftype,
            fileW.size, str "u1" ++ str "/" ++ str "g" ++ str "." ++
              fileExtOf fileW.name, str "image", 0⟩]
      ∧ (imagesUploadMutation dbEmpty (some (str "u1")) (str "g") (str "r")
          fileW true true 0).1.objects
        = dbEmpty.objects ++ [(str "images",
            str "u1" ++ str "/" ++ str "g" ++ str "." ++ fileExtOf fileW.name)]
      ∧ ownsFirstFolder (str "u1")
          (str "u1" ++ str "/" ++ str "g" ++ str "." ++ fileExtOf fileW.name)
        = true) :=
  ⟨by decide,
   uploadPathEncodesOwner dbEmpty (str "u1") (str "g") (str "r") fileW 0
     (by decide)⟩

theorem chatValidationRejects_witness :
    ¬(1 ≤ (jsTrim (str "")).length ∧ (jsTrim (str "")).length ≤ 100 ∧
      1 ≤ (jsTrim (str "hi")).length ∧ (jsTrim (str "hi")).length ≤ 500)
    ∧ ((chatCreateMutation dbEmpty (some (str "u1")) (str "") (str "hi")
        (str "n1") 0 true).1 = dbEmpty
      ∧ (chatCreateMutation dbEmpty (some (str "u1")) (str "") (str "hi")
          (str "n1") 0 true).2.isSome = true) :=
  ⟨by decide,
   chatValidationRejects dbEmpty (some (str "u1")) (str "") (str "hi")
     (str "n1") 0 true (by decide)⟩
